import Mathlib

/-!
Verification of the event-generation engine of the
`real-time-ecommerce-data-analytics` repository.

The Python sources under `src/data_generators` and `src/pipeline` are
shallowly embedded below.  Monetary values, which the Python code holds in
floats, are modelled as exact rationals (`ℚ`); Python's `round(x, 2)`
(round-half-to-even at two decimals) is modelled by `pyRound2`.  Database
tables are modelled as lists of rows, and the random choices a generator
makes are threaded in as explicit parameters (oracles), so every function is
a pure, executable Lean definition.
-/

namespace ECommerce

/-- Python's `round` on the integer grid: round half to even.
`pyRoundInt q` is the integer nearest to `q`, ties going to the even
integer. -/
def pyRoundInt (q : ℚ) : ℤ :=
  let f : ℤ := Int.floor q
  let r : ℚ := q - (f : ℚ)
  if r < 1/2 then f
  else if 1/2 < r then f + 1
  else if f % 2 = 0 then f else f + 1

/-- Python's `round(x, 2)`: round to two decimal places, half to even. -/
def pyRound2 (q : ℚ) : ℚ := (pyRoundInt (q * 100) : ℚ) / 100

/-- One row of the `cart_items` table as read by
`OrderGenerator.generate_order` (`SELECT product_id, quantity, unit_price`). -/
structure CartItem where
  product_id : String
  quantity : ℕ
  unit_price : ℚ
deriving Repr, DecidableEq

/-- The four amounts returned by `OrderGenerator.calculate_order_amounts`. -/
structure OrderAmounts where
  total_amount : ℚ
  tax_amount : ℚ
  shipping_amount : ℚ
  discount_amount : ℚ
deriving Repr, DecidableEq

/-- `sum(item['quantity'] * item['unit_price'] for item in cart_items)`. -/
def cartSubtotal (cart_items : List CartItem) : ℚ :=
  (cart_items.map (fun item => (item.quantity : ℚ) * item.unit_price)).sum

/-- Embedding of `OrderGenerator.calculate_order_amounts`
(src/data_generators/order_generator.py lines 46-67): 8% tax rounded to two
decimals, $10 shipping below a $100 subtotal, 10% discount (rounded) above a
$200 subtotal, and `total = subtotal + tax + shipping - discount`. -/
def calculate_order_amounts (cart_items : List CartItem) : OrderAmounts :=
  let subtotal := cartSubtotal cart_items
  let tax_rate : ℚ := 8/100
  let shipping_base : ℚ := 10
  let tax_amount := pyRound2 (subtotal * tax_rate)
  let shipping_amount := if subtotal < 100 then shipping_base else 0
  let discount_amount := if 200 < subtotal then pyRound2 (subtotal * (1/10)) else 0
  let total_amount := subtotal + tax_amount + shipping_amount - discount_amount
  { total_amount := total_amount
    tax_amount := tax_amount
    shipping_amount := shipping_amount
    discount_amount := discount_amount }

/-- C1: for every list of non-removed cart items, the order amounts satisfy
subtotal = Σ quantity × unit_price, tax = round(subtotal · 0.08, 2),
shipping = 10 if subtotal < 100 else 0, discount = round(subtotal · 0.10, 2)
if subtotal > 200 else 0, and total = subtotal + tax + shipping − discount;
in particular a cart totalling exactly $250 yields discount 25.00,
shipping 0, tax 20.00 and total 245.00. -/
theorem order_amounts_formula (items : List CartItem) :
    (calculate_order_amounts items).tax_amount
        = pyRound2 (cartSubtotal items * (8/100)) ∧
    (calculate_order_amounts items).shipping_amount
        = (if cartSubtotal items < 100 then 10 else 0) ∧
    (calculate_order_amounts items).discount_amount
        = (if 200 < cartSubtotal items
            then pyRound2 (cartSubtotal items * (1/10)) else 0) ∧
    (calculate_order_amounts items).total_amount
        = cartSubtotal items + (calculate_order_amounts items).tax_amount
            + (calculate_order_amounts items).shipping_amount
            - (calculate_order_amounts items).discount_amount ∧
    (cartSubtotal items = 250 →
      (calculate_order_amounts items).discount_amount = 25 ∧
      (calculate_order_amounts items).shipping_amount = 0 ∧
      (calculate_order_amounts items).tax_amount = 20 ∧
      (calculate_order_amounts items).total_amount = 245) := by
  refine ⟨rfl, rfl, rfl, rfl, fun h => ?_⟩
  simp only [calculate_order_amounts, h]
  norm_num [pyRound2, pyRoundInt]

/-- Witness for C1: the one-item cart `[(p1, qty 1, $250)]` has subtotal
exactly 250 and its computed total is 245.00. -/
theorem order_amounts_formula_witness :
    cartSubtotal [⟨"p1", 1, 250⟩] = 250 ∧
    (calculate_order_amounts [⟨"p1", 1, 250⟩]).total_amount = 245 :=
  ⟨by norm_num [cartSubtotal],
   ((order_amounts_formula [⟨"p1", 1, 250⟩]).2.2.2.2
      (by norm_num [cartSubtotal])).2.2.2⟩

/-- One row of the `orders` table as inserted by
`OrderGenerator.generate_order`.  Timestamps are abstract clock values. -/
structure OrderRow where
  order_id : String
  user_id : String
  cart_id : String
  status : String
  total_amount : ℚ
  tax_amount : ℚ
  shipping_amount : ℚ
  discount_amount : ℚ
  payment_method : String
  delivery_method : String
  billing_address_id : String
  shipping_address_id : String
  created_at : ℕ
  updated_at : ℕ
deriving Repr, DecidableEq

/-- One row of the `order_items` table. -/
structure OrderItemRow where
  order_item_id : String
  order_id : String
  product_id : String
  quantity : ℕ
  unit_price : ℚ
  discount_amount : ℚ
  created_at : ℕ
deriving Repr, DecidableEq

/-- The `status_flow` dict of `OrderGenerator.update_order_status`
(order_generator.py lines 134-138). -/
def status_flow : List (String × String) :=
  [("pending", "processing"), ("processing", "shipped"), ("shipped", "delivered")]

/-- `status_flow.get(current_status)`: dict lookup, `None` when absent. -/
def statusFlowGet (current_status : String) : Option String :=
  (status_flow.find? (fun p => p.1 == current_status)).map (fun p => p.2)

/-- Embedding of `OrderGenerator.update_order_status` (lines 132-153): when
the flow map has a successor, write it to the matching `orders` row and
return it; otherwise return the current status with no write. -/
def update_order_status (orders : List OrderRow) (order_id current_status : String)
    (now : ℕ) : List OrderRow × String :=
  match statusFlowGet current_status with
  | some new_status =>
      (orders.map (fun o =>
        if o.order_id == order_id then { o with status := new_status, updated_at := now } else o),
       new_status)
  | none => (orders, current_status)

/-- C6: the order status update follows the strictly linear map
pending → processing → shipped → delivered, never produces `cancelled`
from any other status, and returns the current status unchanged when the
map has no successor for it. -/
theorem order_status_update_linear (orders : List OrderRow) (oid : String) (now : ℕ) :
    (update_order_status orders oid "pending" now).2 = "processing" ∧
    (update_order_status orders oid "processing" now).2 = "shipped" ∧
    (update_order_status orders oid "shipped" now).2 = "delivered" ∧
    (∀ s, s ≠ "cancelled" → (update_order_status orders oid s now).2 ≠ "cancelled") ∧
    (∀ s, statusFlowGet s = none → (update_order_status orders oid s now).2 = s) := by
  refine ⟨rfl, rfl, rfl, fun s hs => ?_, fun s hs => ?_⟩
  · unfold update_order_status
    cases hfind : statusFlowGet s with
    | none => simpa using hs
    | some ns =>
        obtain ⟨⟨a, b⟩, hmem, hab⟩ :
            ∃ p ∈ status_flow, p.2 = ns := by
          unfold statusFlowGet at hfind
          cases hf : status_flow.find? (fun p => p.1 == s) with
          | none => rw [hf] at hfind; simp at hfind
          | some p =>
              rw [hf] at hfind
              exact ⟨p, List.mem_of_find?_eq_some hf, by simpa using hfind⟩
        subst hab
        fin_cases hmem <;> simp
  · unfold update_order_status
    rw [hs]

/-- Witness for C6: the status `delivered` has no successor in the flow map
and is returned unchanged, and `pending` advances to `processing`. -/
theorem order_status_update_linear_witness :
    (update_order_status [] "o1" "delivered" 0).2 = "delivered" ∧
    (update_order_status [] "o1" "pending" 0).2 = "processing" :=
  ⟨(order_status_update_linear [] "o1" 0).2.2.2.2 "delivered" rfl,
   (order_status_update_linear [] "o1" 0).1⟩

/-- One row of the `cart_items` table; `removed` models
`removed_timestamp IS NOT NULL`. -/
structure CartItemRow where
  cart_item_id : String
  cart_id : String
  product_id : String
  quantity : ℕ
  unit_price : ℚ
  removed : Bool
deriving Repr, DecidableEq

/-- A default address as held in `OrderGenerator.user_addresses` (the
snapshot `SELECT user_id, address_id, address_type FROM user_addresses
WHERE is_default = true`). -/
structure AddressRow where
  user_id : String
  address_id : String
  address_type : String
deriving Repr, DecidableEq

/-- The cart-items query of `OrderGenerator.generate_order`:
`SELECT product_id, quantity, unit_price FROM cart_items WHERE cart_id = X
AND removed_timestamp IS NULL`. -/
def cartItemsFor (cart_items_table : List CartItemRow) (cart_id : String) : List CartItem :=
  (cart_items_table.filter (fun r => r.cart_id == cart_id && !r.removed)).map
    (fun r => { product_id := r.product_id, quantity := r.quantity, unit_price := r.unit_price })

/-- Embedding of `OrderGenerator.get_user_addresses` (lines 39-44): the
first default billing and first default shipping address of the user. -/
def get_user_addresses (user_addresses : List AddressRow) (user_id : String) :
    Option String × Option String :=
  let addresses := user_addresses.filter (fun a => a.user_id == user_id)
  ((addresses.find? (fun a => a.address_type == "billing")).map (fun a => a.address_id),
   (addresses.find? (fun a => a.address_type == "shipping")).map (fun a => a.address_id))

/-- Embedding of `OrderGenerator.generate_order` (lines 69-130).  The
random draws of the source (`uuid.uuid4`, `random.choices` for payment and
delivery method) are threaded in as the explicit parameters `order_id`,
`item_id`, `payment_method`, `delivery_method`.  Returns `none` exactly
where the source returns `None, None` (no non-removed cart item, or a
missing default billing or shipping address). -/
def generate_order (cart_items_table : List CartItemRow) (user_addresses : List AddressRow)
    (cart_user_id cart_id : String) (order_id : String) (item_id : ℕ → String)
    (payment_method delivery_method : String) (now : ℕ) :
    Option (OrderRow × List OrderItemRow) :=
  let cart_items := cartItemsFor cart_items_table cart_id
  if cart_items.isEmpty then none
  else
    match get_user_addresses user_addresses cart_user_id with
    | (some billing_id, some shipping_id) =>
        let amounts := calculate_order_amounts cart_items
        let order : OrderRow :=
          { order_id := order_id
            user_id := cart_user_id
            cart_id := cart_id
            status := "pending"
            total_amount := amounts.total_amount
            tax_amount := amounts.tax_amount
            shipping_amount := amounts.shipping_amount
            discount_amount := amounts.discount_amount
            payment_method := payment_method
            delivery_method := delivery_method
            billing_address_id := billing_id
            shipping_address_id := shipping_id
            created_at := now
            updated_at := now }
        let order_items := cart_items.enum.map (fun p =>
          ({ order_item_id := item_id p.1
             order_id := order_id
             product_id := p.2.product_id
             quantity := p.2.quantity
             unit_price := p.2.unit_price
             discount_amount := pyRound2 (if 0 < amounts.total_amount
               then p.2.unit_price * (p.2.quantity : ℚ)
                 * (amounts.discount_amount / amounts.total_amount)
               else 0)
             created_at := now } : OrderItemRow))
        some (order, order_items)
    | _ => none

/-- The cart-items table of the worked example: one non-removed item of
cart `c1`, quantity 1 at $250. -/
def sampleCartItemsTable : List CartItemRow :=
  [{ cart_item_id := "ci1", cart_id := "c1", product_id := "p1",
     quantity := 1, unit_price := 250, removed := false }]

/-- Default billing and shipping addresses of user `u1`. -/
def sampleAddressTable : List AddressRow :=
  [{ user_id := "u1", address_id := "addr-b", address_type := "billing" },
   { user_id := "u1", address_id := "addr-s", address_type := "shipping" }]

/-- The order generated for cart `c1` of the worked example ($250 subtotal:
tax 20, shipping 0, discount 25, total 245). -/
def sampleOrder : OrderRow :=
  { order_id := "o1", user_id := "u1", cart_id := "c1", status := "pending",
    total_amount := 245, tax_amount := 20, shipping_amount := 0,
    discount_amount := 25, payment_method := "credit_card",
    delivery_method := "standard", billing_address_id := "addr-b",
    shipping_address_id := "addr-s", created_at := 0, updated_at := 0 }

/-- The single order item generated for cart `c1`: the source divides the
order discount by `total_amount`, so the line discount is
`round(250 * (25 / 245), 2) = 25.51`. -/
def sampleOrderItem : OrderItemRow :=
  { order_item_id := "oi1", order_id := "o1", product_id := "p1",
    quantity := 1, unit_price := 250, discount_amount := 2551/100,
    created_at := 0 }

/-- Evaluation of the cart-items query on the worked example. -/
theorem sample_cart_items_eval :
    cartItemsFor sampleCartItemsTable "c1"
      = [{ product_id := "p1", quantity := 1, unit_price := 250 }] := rfl

/-- Evaluation of the order amounts on the worked example: subtotal 250
gives tax 20, shipping 0, discount 25, total 245. -/
theorem sample_amounts_eval :
    calculate_order_amounts [{ product_id := "p1", quantity := 1, unit_price := 250 }]
      = { total_amount := 245, tax_amount := 20, shipping_amount := 0,
          discount_amount := 25 } := by
  unfold calculate_order_amounts cartSubtotal
  norm_num [pyRound2, pyRoundInt, OrderAmounts.mk.injEq]

/-- Evaluation of the default-address lookup on the worked example. -/
theorem sample_addresses_eval :
    get_user_addresses sampleAddressTable "u1" = (some "addr-b", some "addr-s") := rfl

/-- Evaluation of `generate_order` on the worked example. -/
theorem sample_generate_order_eval :
    generate_order sampleCartItemsTable sampleAddressTable "u1" "c1" "o1"
        (fun _ => "oi1") "credit_card" "standard" 0
      = some (sampleOrder, [sampleOrderItem]) := by
  simp only [generate_order, sample_cart_items_eval, sample_addresses_eval,
    sample_amounts_eval, List.enum, List.enumFrom, List.map, List.isEmpty,
    Bool.false_eq_true, if_false]
  simp only [sampleOrder, sampleOrderItem, Option.some.injEq, Prod.mk.injEq,
    List.cons.injEq, OrderRow.mk.injEq, OrderItemRow.mk.injEq, and_true, true_and]
  norm_num [pyRound2, pyRoundInt]

/-- Counterexample to C4: on the $250 single-item cart the source computes
the line discount as `round(250 · (25 / 245), 2) = 25.51` (dividing the
order discount by `total_amount`), while the claim's formula (dividing by
the subtotal) gives `round(250 · (25 / 250), 2) = 25.00`. -/
theorem order_item_discount_not_by_subtotal :
    generate_order sampleCartItemsTable sampleAddressTable "u1" "c1" "o1"
        (fun _ => "oi1") "credit_card" "standard" 0
      = some (sampleOrder, [sampleOrderItem]) ∧
    sampleOrderItem.discount_amount = 2551/100 ∧
    pyRound2 ((250 : ℚ) * 1 * (25/250)) = 25 ∧
    (2551/100 : ℚ) ≠ 25 := by
  refine ⟨sample_generate_order_eval, rfl, by norm_num [pyRound2, pyRoundInt], by norm_num⟩

/-- Rounding zero gives zero. -/
theorem pyRound2_zero_eval : pyRound2 0 = 0 := by norm_num [pyRound2, pyRoundInt]

/-- For any successful `generate_order`, the generated order carries the
cart id it was called with. -/
theorem generate_order_cart_id (tbl : List CartItemRow) (addrs : List AddressRow)
    (uid cid oid : String) (iid : ℕ → String) (pm dm : String) (now : ℕ)
    (o : OrderRow) (its : List OrderItemRow)
    (h : generate_order tbl addrs uid cid oid iid pm dm now = some (o, its)) :
    o.cart_id = cid := by
  unfold generate_order at h
  split at h
  · simp at h
    obtain ⟨-, rfl, -⟩ := h
    rfl
  · simp at h

/-- C4 (amended): every order item's discount is `round2` of
quantity × unit_price × (order discount ÷ order `total_amount`) — the source
divides by the total, not the subtotal — and the guard is on
`total_amount > 0`, so every line discount is 0 whenever the total is not
positive. -/
theorem order_item_discount_by_total (tbl : List CartItemRow) (addrs : List AddressRow)
    (uid cid oid : String) (iid : ℕ → String) (pm dm : String) (now : ℕ)
    (o : OrderRow) (its : List OrderItemRow)
    (h : generate_order tbl addrs uid cid oid iid pm dm now = some (o, its)) :
    (∀ it ∈ its, it.discount_amount
        = pyRound2 (if 0 < o.total_amount
            then it.unit_price * (it.quantity : ℚ) * (o.discount_amount / o.total_amount)
            else 0)) ∧
    (o.total_amount ≤ 0 → ∀ it ∈ its, it.discount_amount = 0) := by
  unfold generate_order at h
  split at h
  · simp at h
    obtain ⟨-, rfl, rfl⟩ := h
    constructor
    · intro it hit
      obtain ⟨⟨i, ci⟩, hmem, rfl⟩ := List.mem_map.mp hit
      rfl
    · intro hle it hit
      obtain ⟨⟨i, ci⟩, hmem, rfl⟩ := List.mem_map.mp hit
      dsimp only at hle ⊢
      rw [if_neg (not_lt.mpr hle), pyRound2_zero_eval]
  · simp at h

/-- Witness for C4 (amended): the single generated line of the worked
example carries discount `round2(250 · 1 · (25 / 245)) = 25.51`. -/
theorem order_item_discount_by_total_witness :
    sampleOrderItem.discount_amount
      = pyRound2 (if 0 < sampleOrder.total_amount
          then sampleOrderItem.unit_price * (sampleOrderItem.quantity : ℚ)
            * (sampleOrder.discount_amount / sampleOrder.total_amount)
          else 0) :=
  (order_item_discount_by_total sampleCartItemsTable sampleAddressTable "u1" "c1" "o1"
      (fun _ => "oi1") "credit_card" "standard" 0 sampleOrder [sampleOrderItem]
      sample_generate_order_eval).1 sampleOrderItem (List.mem_singleton.mpr rfl)

/-- One row of the `carts` table (the columns the order generator reads). -/
structure CartRow where
  cart_id : String
  user_id : String
  session_id : String
  status : String
deriving Repr, DecidableEq

/-- One row of the `user_addresses` table. -/
structure UserAddressRow where
  user_id : String
  address_id : String
  address_type : String
  is_default : Bool
deriving Repr, DecidableEq

/-- The slice of the database the order generator touches. -/
structure GenDB where
  carts : List CartRow
  cart_items : List CartItemRow
  orders : List OrderRow
  order_items : List OrderItemRow
  user_addresses : List UserAddressRow
deriving Repr, DecidableEq

/-- The pending-carts query of `OrderGenerator.load_active_data`:
converted carts with no existing order (`NOT EXISTS (SELECT 1 FROM orders o
WHERE o.cart_id = c.cart_id)`). -/
def pending_carts_query (db : GenDB) : List CartRow :=
  db.carts.filter (fun c =>
    c.status == "converted" && !(db.orders.any (fun o => o.cart_id == c.cart_id)))

/-- The active-orders query of `load_active_data`:
`status NOT IN ('delivered', 'cancelled')`. -/
def active_orders_query (db : GenDB) : List OrderRow :=
  db.orders.filter (fun o => !(o.status == "delivered") && !(o.status == "cancelled"))

/-- The default-address query of `load_active_data`:
`WHERE is_default = true`, projected to the three columns read later. -/
def default_addresses_query (db : GenDB) : List AddressRow :=
  (db.user_addresses.filter (fun a => a.is_default)).map
    (fun a => { user_id := a.user_id, address_id := a.address_id,
                address_type := a.address_type })

/-- The in-memory snapshot held by the order generator between refreshes. -/
structure OrderGenData where
  pending_carts : List CartRow
  active_orders : List OrderRow
  user_addresses : List AddressRow
deriving Repr, DecidableEq

/-- Embedding of `OrderGenerator.load_active_data` (lines 13-37). -/
def load_active_data (db : GenDB) : OrderGenData :=
  { pending_carts := pending_carts_query db
    active_orders := active_orders_query db
    user_addresses := default_addresses_query db }

/-- The order-creation branch of `OrderGenerator.generate_event`
(lines 167-180): choose a cart from the `pending_carts` snapshot
(`random.choice` is the index `pick`, reduced modulo the snapshot length),
run `generate_order`, and on success insert the order and its items.  The
snapshot `gen` is NOT refreshed by this step, exactly as in the source
(refresh happens separately, with 20% probability per loop iteration). -/
def order_create_tick (db : GenDB) (gen : OrderGenData) (pick : ℕ) (oid : String)
    (iid : ℕ → String) (pm dm : String) (now : ℕ) :
    GenDB × Option (OrderRow × List OrderItemRow) :=
  match gen.pending_carts.get? (pick % gen.pending_carts.length) with
  | none => (db, none)
  | some cart =>
      match generate_order db.cart_items gen.user_addresses cart.user_id cart.cart_id
          oid iid pm dm now with
      | some (o, its) =>
          ({ db with orders := db.orders ++ [o], order_items := db.order_items ++ its },
           some (o, its))
      | none => (db, none)

/-- A database with one converted cart `c1` (items totalling $250, both
default addresses present) and no order yet. -/
def c3db : GenDB :=
  { carts := [{ cart_id := "c1", user_id := "u1", session_id := "s1", status := "converted" }]
    cart_items := sampleCartItemsTable
    orders := []
    order_items := []
    user_addresses :=
      [{ user_id := "u1", address_id := "addr-b", address_type := "billing", is_default := true },
       { user_id := "u1", address_id := "addr-s", address_type := "shipping", is_default := true }] }

/-- Evaluation of a creation tick against the (stale) snapshot of `c3db`:
whatever the current `orders` table contains, as long as the cart-items
table is the sample one, the tick inserts one more order for cart `c1`. -/
theorem c3_stale_tick_eval (db : GenDB) (hci : db.cart_items = sampleCartItemsTable)
    (oid : String) (iid : ℕ → String) (pm dm : String) (now : ℕ) :
    order_create_tick db (load_active_data c3db) 0 oid iid pm dm now
      = ({ db with
            orders := db.orders
              ++ [{ order_id := oid, user_id := "u1", cart_id := "c1", status := "pending",
                    total_amount := 245, tax_amount := 20, shipping_amount := 0,
                    discount_amount := 25, payment_method := pm, delivery_method := dm,
                    billing_address_id := "addr-b", shipping_address_id := "addr-s",
                    created_at := now, updated_at := now }]
            order_items := db.order_items
              ++ [{ order_item_id := iid 0, order_id := oid, product_id := "p1",
                    quantity := 1, unit_price := 250, discount_amount := 2551/100,
                    created_at := now }] },
         some ({ order_id := oid, user_id := "u1", cart_id := "c1", status := "pending",
                 total_amount := 245, tax_amount := 20, shipping_amount := 0,
                 discount_amount := 25, payment_method := pm, delivery_method := dm,
                 billing_address_id := "addr-b", shipping_address_id := "addr-s",
                 created_at := now, updated_at := now },
               [{ order_item_id := iid 0, order_id := oid, product_id := "p1",
                  quantity := 1, unit_price := 250, discount_amount := 2551/100,
                  created_at := now }])) := by
  have hload : load_active_data c3db
      = { pending_carts :=
            [{ cart_id := "c1", user_id := "u1", session_id := "s1", status := "converted" }]
          active_orders := []
          user_addresses := sampleAddressTable } := rfl
  rw [hload]
  simp only [order_create_tick]
  rw [hci]
  simp only [List.get?, List.length_cons, List.length_nil, Nat.zero_mod]
  rw [show generate_order sampleCartItemsTable sampleAddressTable "u1" "c1" oid iid pm dm now
        = some ({ order_id := oid, user_id := "u1", cart_id := "c1", status := "pending",
                  total_amount := 245, tax_amount := 20, shipping_amount := 0,
                  discount_amount := 25, payment_method := pm, delivery_method := dm,
                  billing_address_id := "addr-b", shipping_address_id := "addr-s",
                  created_at := now, updated_at := now },
                [{ order_item_id := iid 0, order_id := oid, product_id := "p1",
                   quantity := 1, unit_price := 250, discount_amount := 2551/100,
                   created_at := now }]) from by
    simp only [generate_order, sample_cart_items_eval, sample_addresses_eval,
      sample_amounts_eval, List.enum, List.enumFrom, List.map, List.isEmpty,
      Bool.false_eq_true, if_false]
    simp only [Option.some.injEq, Prod.mk.injEq, List.cons.injEq,
      OrderRow.mk.injEq, OrderItemRow.mk.injEq, and_true, true_and]
    norm_num [pyRound2, pyRoundInt]]

/-- Counterexample to C3: with the snapshot loaded once (as the source
does, refreshing only occasionally), two successive creation ticks both
select cart `c1` and the second is NOT a no-op: afterwards the `orders`
table holds two orders for the same cart. -/
theorem second_tick_duplicates_order :
    ((order_create_tick
        (order_create_tick c3db (load_active_data c3db) 0 "o1"
          (fun _ => "oi1") "credit_card" "standard" 0).1
        (load_active_data c3db) 0 "o2"
          (fun _ => "oi2") "credit_card" "standard" 1).1.orders.map
      (fun o => o.cart_id)) = ["c1", "c1"] := by
  rw [c3_stale_tick_eval c3db rfl "o1" (fun _ => "oi1") "credit_card" "standard" 0]
  rw [c3_stale_tick_eval _ rfl "o2" (fun _ => "oi2") "credit_card" "standard" 1]
  simp [c3db]

/-- C3 (amended): order creation is idempotent only across snapshot
refreshes — any creation tick whose cart choice uses a FRESHLY loaded
snapshot can only pick a cart with no existing order, so it leaves exactly
one order for that cart.  (Between refreshes the stale snapshot can
produce duplicates, as the counterexample shows.) -/
theorem order_creation_noop_after_refresh (db : GenDB) (pick : ℕ) (oid : String)
    (iid : ℕ → String) (pm dm : String) (now : ℕ) (db2 : GenDB) (o : OrderRow)
    (its : List OrderItemRow)
    (h : order_create_tick db (load_active_data db) pick oid iid pm dm now
          = (db2, some (o, its))) :
    (db.orders.filter (fun r => r.cart_id == o.cart_id)).length = 0 ∧
    (db2.orders.filter (fun r => r.cart_id == o.cart_id)).length = 1 := by
  unfold order_create_tick at h
  cases hget : (load_active_data db).pending_carts.get?
      (pick % (load_active_data db).pending_carts.length) with
  | none =>
      rw [hget] at h
      simp at h
  | some cart =>
      rw [hget] at h
      dsimp only at h
      cases hgen : generate_order db.cart_items (load_active_data db).user_addresses
          cart.user_id cart.cart_id oid iid pm dm now with
      | none =>
          rw [hgen] at h
          simp at h
      | some pr =>
          obtain ⟨o', its'⟩ := pr
          rw [hgen] at h
          simp only [Prod.mk.injEq, Option.some.injEq] at h
          obtain ⟨hdb2, rfl, rfl⟩ := h
          have hcid : o'.cart_id = cart.cart_id :=
            generate_order_cart_id db.cart_items (load_active_data db).user_addresses
              cart.user_id cart.cart_id oid iid pm dm now o' its' hgen
          have hmem : cart ∈ (load_active_data db).pending_carts :=
            List.get?_mem hget
          have hpred : (cart.status == "converted"
              && !(db.orders.any (fun r => r.cart_id == cart.cart_id))) = true := by
            have hmem2 : cart ∈ db.carts.filter (fun c =>
                c.status == "converted"
                  && !(db.orders.any (fun r => r.cart_id == c.cart_id))) := by
              simpa [load_active_data, pending_carts_query] using hmem
            exact (List.mem_filter.mp hmem2).2
          have hnone : ∀ r ∈ db.orders, ¬(r.cart_id == cart.cart_id) = true := by
            simp only [Bool.and_eq_true, Bool.not_eq_true', List.any_eq_false] at hpred
            exact hpred.2
          have hfilter : db.orders.filter (fun r => r.cart_id == o'.cart_id) = [] := by
            rw [hcid]
            exact List.filter_eq_nil_iff.mpr hnone
          subst hdb2
          constructor
          · rw [hfilter]
            rfl
          · simp only [List.filter_append, hfilter, List.nil_append,
              List.filter, beq_self_eq_true]
            rfl

/-- Witness for C3 (amended): on the fresh snapshot of `c3db` the first
creation tick leaves exactly one order for cart `c1`. -/
theorem order_creation_noop_after_refresh_witness :
    (c3db.orders.filter (fun r => r.cart_id == sampleOrder.cart_id)).length = 0 ∧
    (({ c3db with orders := c3db.orders ++ [sampleOrder],
                  order_items := c3db.order_items ++ [sampleOrderItem] } : GenDB).orders.filter
      (fun r => r.cart_id == sampleOrder.cart_id)).length = 1 :=
  order_creation_noop_after_refresh c3db 0 "o1" (fun _ => "oi1") "credit_card" "standard" 0
    { c3db with orders := c3db.orders ++ [sampleOrder],
                order_items := c3db.order_items ++ [sampleOrderItem] }
    sampleOrder [sampleOrderItem]
    (c3_stale_tick_eval c3db rfl "o1" (fun _ => "oi1") "credit_card" "standard" 0)

/-- One row of the `failed_events` dead-letter table (the QuarantinedEvent
of the spec). -/
structure FailedEventRow where
  topic : String
  event_data : String
  created_at : ℕ
  retry_count : ℕ
  last_retry_at : Option ℕ
  error_message : String
deriving Repr, DecidableEq

/-- The record built by `BaseGenerator.store_failed_event`
(event_generator.py lines 176-188).  The dict literal evaluates
`str(e)` for `error_message`, but `e` is a local variable of that function
— it is bound only by the function's own `except Exception as e` clause,
which makes `e` local to the whole function body — and it is unbound at
the point of use, so building the record raises `UnboundLocalError` before
`insert_record` can run. -/
def store_failed_event_record (topic event_data : String) (now : ℕ) :
    Except String FailedEventRow :=
  Except.error "UnboundLocalError: cannot access local variable e"

/-- Embedding of `BaseGenerator.store_failed_event`: the `try` body raises
while building the record (see `store_failed_event_record`), the `except`
clause logs and swallows the error, and the dead-letter table is returned
unchanged — no row is ever inserted. -/
def store_failed_event (failed_events : List FailedEventRow)
    (topic event_data : String) (now : ℕ) : List FailedEventRow :=
  match store_failed_event_record topic event_data now with
  | Except.ok r => failed_events ++ [r]
  | Except.error _ => failed_events

/-- `BaseGenerator.simulate_network_issues`: `random.random() < 0.02`,
with the random draw passed in as `roll`. -/
def simulate_network_issues (roll : ℚ) : Bool := roll < 2/100

/-- The externally visible state touched by `BaseGenerator.send_event`:
rows written through the store (`insert_record`), events acknowledged by
the sink (`producer.send(...).get(...)`), and the dead-letter table. -/
structure SinkState where
  tables_inserted : List (String × String)
  published : List (String × String)
  failed_events : List FailedEventRow
deriving Repr, DecidableEq

/-- Which operations a single `send_event` call attempted. -/
structure SendTrace where
  gateway_attempted : Bool
  publish_attempted : Bool
  quarantine_called : Bool
deriving Repr, DecidableEq

/-- Embedding of `BaseGenerator.send_event` (lines 158-174).  The body is
ONE `try` block: simulated-network check, data-quality mutation `dq`
(abstracted as an oracle — it returns a same-schema payload and cannot
raise), the store insert, then the sink publish; the first failure jumps
to the `except` clause, which calls `store_failed_event`.  The oracles
`gateway_fails` and `publish_fails` say whether `insert_record` and
`producer.send(...).get(...)` raise. -/
def send_event (st : SinkState) (topic event : String) (dq : String → String)
    (roll : ℚ) (gateway_fails publish_fails : Bool) (now : ℕ) :
    SinkState × SendTrace :=
  if simulate_network_issues roll then
    ({ st with failed_events := store_failed_event st.failed_events topic event now },
     { gateway_attempted := false, publish_attempted := false, quarantine_called := true })
  else
    let ev := dq event
    if gateway_fails then
      ({ st with failed_events := store_failed_event st.failed_events topic ev now },
       { gateway_attempted := true, publish_attempted := false, quarantine_called := true })
    else
      let st1 := { st with tables_inserted := st.tables_inserted ++ [(topic, ev)] }
      if publish_fails then
        ({ st1 with failed_events := store_failed_event st1.failed_events topic ev now },
         { gateway_attempted := true, publish_attempted := true, quarantine_called := true })
      else
        ({ st1 with published := st1.published ++ [(topic, ev)] },
         { gateway_attempted := true, publish_attempted := true, quarantine_called := false })

/-- A network-check roll of 1 is above the 2% failure rate. -/
theorem sim_net_roll_one : simulate_network_issues 1 = false := by
  simp only [simulate_network_issues, decide_eq_false_iff_not, not_lt]
  norm_num

/-- C2 is a code bug: a `send_event` whose publish fails does route into
`store_failed_event`, but because of the unbound `e` no QuarantinedEvent
row is created — the dead-letter table stays empty and the event is lost
(only a log line remains). -/
theorem failed_publish_creates_no_quarantine_record :
    (send_event { tables_inserted := [], published := [], failed_events := [] }
        "orders" "ev1" (fun s => s) 1 false true 0).2.quarantine_called = true ∧
    (send_event { tables_inserted := [], published := [], failed_events := [] }
        "orders" "ev1" (fun s => s) 1 false true 0).1.failed_events = [] ∧
    store_failed_event [] "orders" "ev1" 0 = [] := by
  refine ⟨?_, ?_, rfl⟩ <;>
    simp [send_event, sim_net_roll_one, store_failed_event, store_failed_event_record]

/-- Counterexample to C7: when the store insert (Gateway write) fails, the
publish is never attempted — both operations live in one `try` block, so
the claim that "a Gateway failure does not prevent the publish attempt" is
false. -/
theorem gateway_failure_skips_publish :
    (send_event { tables_inserted := [], published := [], failed_events := [] }
        "orders" "ev1" (fun s => s) 1 true false 0).2.publish_attempted = false := by
  simp [send_event, sim_net_roll_one]

/-- C7 (amended): within one guarded block the gateway write is attempted
iff the simulated-network check passes, the publish is attempted iff the
gateway write also succeeded, any failure routes the event to the
dead-letter handler, and the gateway write is never re-attempted (at most
one insert per call). -/
theorem send_event_single_guarded_block (st : SinkState) (topic event : String)
    (dq : String → String) (roll : ℚ) (gw pub : Bool) (now : ℕ) :
    (send_event st topic event dq roll gw pub now).2.gateway_attempted
        = !(simulate_network_issues roll) ∧
    (send_event st topic event dq roll gw pub now).2.publish_attempted
        = (!(simulate_network_issues roll) && !gw) ∧
    (send_event st topic event dq roll gw pub now).2.quarantine_called
        = (simulate_network_issues roll || gw || pub) ∧
    (send_event st topic event dq roll gw pub now).1.failed_events = st.failed_events ∧
    (send_event st topic event dq roll gw pub now).1.tables_inserted.length
        ≤ st.tables_inserted.length + 1 := by
  cases hnet : simulate_network_issues roll <;>
    cases gw <;> cases pub <;>
      simp [send_event, hnet, store_failed_event, store_failed_event_record]

/-- The orchestrator's keep-running flag (`DataGeneratorOrchestrator`). -/
structure OrchestratorState where
  is_running : Bool
deriving Repr, DecidableEq

/-- `DataGeneratorOrchestrator.handle_shutdown` (main.py lines 58-61):
clears the keep-running flag. -/
def handle_shutdown (s : OrchestratorState) : OrchestratorState :=
  { s with is_running := false }

/-- The loop condition of `CartGenerator.run` (cart_generator.py line 166):
literally `while True` — it never consults the orchestrator state. -/
def cart_run_loop_condition (orch : OrchestratorState) : Bool := true

/-- The loop condition of `SessionGenerator.run` (session_generator.py
line 124): also literally `while True`. -/
def session_run_loop_condition (orch : OrchestratorState) : Bool := true

/-- The wait-loop condition of `DataGeneratorOrchestrator.run_generator`
(main.py line 86): `while self.is_running and not check_dependencies(...)`
— the only loop in the process that reads the flag. -/
def run_generator_wait_condition (orch : OrchestratorState) (deps_ready : Bool) : Bool :=
  orch.is_running && !deps_ready

/-- One iteration of a generator `run` loop: if the loop condition holds a
new tick begins (`generate_event` is invoked and the tick counter grows);
`none` models the loop exiting. -/
def cart_run_step (orch : OrchestratorState) (ticks : ℕ) : Option ℕ :=
  if cart_run_loop_condition orch then some (ticks + 1) else none

/-- C5 is a code bug: after `handle_shutdown` clears the flag, the cart and
session run loops still begin a new tick — their conditions are `while
True` and never read `is_running`, so the loops never exit; only the
pre-start dependency wait loop observes the flag. -/
theorem run_loop_ignores_shutdown :
    cart_run_loop_condition (handle_shutdown { is_running := true }) = true ∧
    session_run_loop_condition (handle_shutdown { is_running := true }) = true ∧
    cart_run_step (handle_shutdown { is_running := true }) 0 = some 1 ∧
    run_generator_wait_condition (handle_shutdown { is_running := true }) false = false :=
  ⟨rfl, rfl, rfl, rfl⟩

/-- One row of the `wishlists` table; `removed` models
`removed_timestamp IS NOT NULL`. -/
structure WishlistRow where
  wishlist_id : String
  user_id : String
  product_id : String
  added_timestamp : ℕ
  removed : Bool
  notes : Option String
deriving Repr, DecidableEq

/-- Embedding of `WishlistGenerator.check_existing_wishlist`
(wishlist_generator.py lines 26-34): true iff a non-removed row for the
(user, product) pair exists. -/
def check_existing_wishlist (wishlists : List WishlistRow)
    (user_id product_id : String) : Bool :=
  wishlists.any (fun r => r.user_id == user_id && r.product_id == product_id && !r.removed)

/-- Embedding of `WishlistGenerator.generate_wishlist_item` (lines 36-62):
pick a random active user and product (`pickU`, `pickP` index the
snapshots), return `None` when either snapshot is empty or the pair is
already wishlisted and not removed. -/
def generate_wishlist_item (wishlists : List WishlistRow)
    (active_users active_products : List String) (pickU pickP : ℕ)
    (new_id : String) (note : Option String) (now : ℕ) : Option WishlistRow :=
  if active_users.isEmpty || active_products.isEmpty then none
  else
    let user_id := active_users.getD (pickU % active_users.length) ""
    let product_id := active_products.getD (pickP % active_products.length) ""
    if check_existing_wishlist wishlists user_id product_id then none
    else some { wishlist_id := new_id, user_id := user_id, product_id := product_id,
                added_timestamp := now, removed := false, notes := note }

/-- The add branch of `WishlistGenerator.generate_event` (lines 96-103):
insert the generated row and return the `wishlist_add` event, or do
nothing when `generate_wishlist_item` returned `None` (the caller's
`if event:` then sends nothing). -/
def wishlist_add_tick (wishlists : List WishlistRow)
    (active_users active_products : List String) (pickU pickP : ℕ)
    (new_id : String) (note : Option String) (now : ℕ) :
    List WishlistRow × Option WishlistRow :=
  match generate_wishlist_item wishlists active_users active_products pickU pickP
      new_id note now with
  | some item => (wishlists ++ [item], some item)
  | none => (wishlists, none)

/-- C9: an add attempt for a (user, product) pair already present and not
removed is a no-op — the table is unchanged and no event is emitted. -/
theorem wishlist_duplicate_add_noop (wishlists : List WishlistRow)
    (users prods : List String) (pu pp : ℕ) (nid : String) (note : Option String)
    (now : ℕ)
    (h : check_existing_wishlist wishlists
          (users.getD (pu % users.length) "")
          (prods.getD (pp % prods.length) "") = true) :
    wishlist_add_tick wishlists users prods pu pp nid note now = (wishlists, none) := by
  by_cases hemp : (users.isEmpty || prods.isEmpty) = true
  · simp [wishlist_add_tick, generate_wishlist_item, hemp]
  · simp at h
    simp [wishlist_add_tick, generate_wishlist_item, hemp, h]

/-- Witness for C9: with (u1, p1) already wishlisted and not removed, the
add tick picking the same pair changes nothing and emits nothing. -/
theorem wishlist_duplicate_add_noop_witness :
    check_existing_wishlist
        [{ wishlist_id := "w1", user_id := "u1", product_id := "p1",
           added_timestamp := 0, removed := false, notes := none }] "u1" "p1" = true ∧
    wishlist_add_tick
        [{ wishlist_id := "w1", user_id := "u1", product_id := "p1",
           added_timestamp := 0, removed := false, notes := none }]
        ["u1"] ["p1"] 0 0 "w2" none 1
      = ([{ wishlist_id := "w1", user_id := "u1", product_id := "p1",
            added_timestamp := 0, removed := false, notes := none }], none) :=
  ⟨rfl,
   wishlist_duplicate_add_noop
     [{ wishlist_id := "w1", user_id := "u1", product_id := "p1",
        added_timestamp := 0, removed := false, notes := none }]
     ["u1"] ["p1"] 0 0 "w2" none 1 rfl⟩

/-- Result of a Python call: a value or a raised exception. -/
inductive PyResult (α : Type) where
  | ok (val : α)
  | exc (msg : String)
deriving Repr, DecidableEq

/-- The attributes actually defined on the `EventProcessor` class
(pipeline/processors/event_processor.py): only `process_event` and
`_process_user_event` exist; the file ends with the comment "Add other
event processors as needed...". -/
def eventProcessorDefinedAttrs : List String :=
  ["process_event", "_process_user_event"]

/-- The five attributes referenced, in evaluation order, by the dict
literal inside `EventProcessor.process_event` (lines 11-17). -/
def referencedProcessorAttrs : List String :=
  ["_process_user_event", "_process_demographic_event", "_process_session_event",
   "_process_product_event", "_process_order_event"]

/-- Replace or insert a key in a Python-dict payload (assoc list). -/
def setKey (data : List (String × String)) (k v : String) : List (String × String) :=
  if data.any (fun kv => kv.1 == k) then
    data.map (fun kv => if kv.1 == k then (k, v) else kv)
  else data ++ [(k, v)]

/-- Embedding of `EventProcessor._process_user_event` (lines 24-35): raise
`ValueError` on the first missing required field, else stamp
`processed_at`. -/
def processUserEvent (now_iso : String) (data : List (String × String)) :
    PyResult (List (String × String)) :=
  match ["email", "first_name", "last_name"].find?
      (fun f => !(data.any (fun kv => kv.1 == f))) with
  | some f => PyResult.exc ("ValueError: Missing required field: " ++ f)
  | none => PyResult.ok (setKey data "processed_at" now_iso)

/-- Embedding of `EventProcessor.process_event` (lines 8-22).  Building
the `processors` dict evaluates each referenced class attribute in order;
the first one that is not defined on the class raises `AttributeError`,
which aborts the call before the `.get` dispatch or the `return data`
fallthrough can run.  Were all attributes present, the call would dispatch
(of the realizable handlers only `_process_user_event` exists) or return
the payload unchanged. -/
def process_event (now_iso event_type : String) (data : List (String × String)) :
    PyResult (List (String × String)) :=
  match referencedProcessorAttrs.find?
      (fun a => !(eventProcessorDefinedAttrs.contains a)) with
  | some missing =>
      PyResult.exc ("AttributeError: type object EventProcessor has no attribute " ++ missing)
  | none =>
      if event_type == "users" then processUserEvent now_iso data
      else PyResult.ok data

/-- C10 is a code bug: `process_event` never acts as the identity on
unregistered event types, because constructing its dispatch dict looks up
`_process_demographic_event` (and three more undefined helpers) on the
class and raises `AttributeError` on every call, whatever the type and
payload. -/
theorem process_event_always_raises :
    (∀ now_iso event_type data, process_event now_iso event_type data
        = PyResult.exc
            "AttributeError: type object EventProcessor has no attribute _process_demographic_event") ∧
    process_event "t0" "cart_events" [("a", "1")]
      = PyResult.exc
          "AttributeError: type object EventProcessor has no attribute _process_demographic_event" :=
  ⟨fun _ _ _ => rfl, rfl⟩

/-- The static dependency map of `DataGeneratorOrchestrator.__init__`
(main.py lines 44-51); generators absent from it (`user`,
`product_category`, `session`) have no declared dependencies. -/
def generator_dependencies : List (String × List String) :=
  [("product", ["product_category"]),
   ("product_view", ["product", "session"]),
   ("wishlist", ["user", "product"]),
   ("cart", ["user", "session", "product"]),
   ("order", ["cart"]),
   ("support_ticket", ["user", "order"])]

/-- The declared upstream names of a generator (empty when it is not in
the dependency map). -/
def depsOf (g : String) : List String :=
  ((generator_dependencies.find? (fun p => p.1 == g)).map (fun p => p.2)).getD []

/-- Embedding of `DataGeneratorOrchestrator.check_dependencies`
(main.py lines 63-79): `True` for generators with no declared
dependencies; otherwise each upstream name is probed with
`SELECT 1 FROM {dependency} LIMIT 1` — an exception (`query_fails`) or an
empty result returns `False`. -/
def check_dependencies (rows : String → ℕ) (query_fails : String → Bool)
    (g : String) : Bool :=
  match generator_dependencies.find? (fun p => p.1 == g) with
  | none => true
  | some p => p.2.all (fun d => !query_fails d && decide (0 < rows d))

/-- A passing dependency check means every declared upstream table had at
least one row at check time. -/
theorem check_dependencies_pos (rows : String → ℕ) (query_fails : String → Bool)
    (g : String) (h : check_dependencies rows query_fails g = true) :
    ∀ d ∈ depsOf g, 0 < rows d := by
  unfold check_dependencies at h
  unfold depsOf
  revert h
  cases generator_dependencies.find? (fun p => p.1 == g) with
  | none =>
      intro h d hd
      simp at hd
  | some p =>
      intro h d hd
      have h2 := List.all_eq_true.mp h d (by simpa using hd)
      exact of_decide_eq_true ((Bool.and_eq_true _ _).mp h2).2

/-- The tables each generator inserts rows into (the `insert_record`
calls of the nine generator classes). -/
def tablesOf (g : String) : List String :=
  if g == "user" then ["users", "user_demographics", "user_addresses"]
  else if g == "product_category" then ["product_categories"]
  else if g == "product" then ["products"]
  else if g == "session" then ["sessions"]
  else if g == "product_view" then ["product_views"]
  else if g == "wishlist" then ["wishlists"]
  else if g == "cart" then ["carts", "cart_items"]
  else if g == "order" then ["orders", "order_items"]
  else if g == "support_ticket" then ["support_tickets", "ticket_messages"]
  else []

/-- Execution state of the orchestrated system: per-table row counts and
the set of generator loops that have entered `generator.run()`. -/
structure SysState where
  rows : String → ℕ
  running : List String

/-- The empty-database start state: no rows, no generator loop started. -/
def initState : SysState := { rows := fun _ => 0, running := [] }

/-- One observable step of the orchestrated system, from
`DataGeneratorOrchestrator.run_generator` and the generator loops:
a generator enters its run loop only after `check_dependencies` returned
`True` (the wait loop of lines 86-88), and a running generator's tick may
insert rows into its own tables (creation events).  Rows are never
deleted — status updates via `update_record` do not change row counts. -/
inductive SchedStep : SysState → SysState → Prop where
  | start (s : SysState) (g : String) (query_fails : String → Bool)
      (hchk : check_dependencies s.rows query_fails g = true) :
      SchedStep s { s with running := g :: s.running }
  | emit (s : SysState) (g t : String) (hg : g ∈ s.running) (ht : t ∈ tablesOf g) :
      SchedStep s { s with rows := fun x => if x = t then s.rows x + 1 else s.rows x }

/-- Reachability along scheduler steps. -/
def SchedReach : SysState → SysState → Prop := Relation.ReflTransGen SchedStep

/-- C8: in every trace from the empty database, a generator with declared
dependencies is running — the precondition for it to emit any creation
event — only in states where each of its upstream tables has at least one
row; and on the empty database the check passes immediately for the
dependency-free `user` generator while the `cart` generator must wait. -/
theorem dependency_gating (s : SysState) (h : SchedReach initState s) :
    (∀ g ∈ s.running, ∀ d ∈ depsOf g, 0 < s.rows d) ∧
    check_dependencies initState.rows (fun _ => false) "user" = true ∧
    check_dependencies initState.rows (fun _ => false) "cart" = false := by
  refine ⟨?_, rfl, rfl⟩
  induction h with
  | refl =>
      intro g hg
      simp [initState] at hg
  | tail hreach hstep ih =>
      cases hstep with
      | start g' query_fails hchk =>
          intro g hg d hd
          rcases List.mem_cons.mp hg with rfl | hg'
          · exact check_dependencies_pos _ query_fails g hchk d hd
          · exact ih g hg' d hd
      | emit g' t hg' ht =>
          intro g hg d hd
          have hpos := ih g hg d hd
          dsimp only
          by_cases hdt : d = t
          · simp [hdt]
          · simpa [hdt] using hpos

/-- Witness for C8: after the dependency-free `user` generator starts on
the empty database (a one-step reachable state), the gating facts of the
scenario hold: `user` passes the empty-database check, `cart` does not. -/
theorem dependency_gating_witness :
    check_dependencies initState.rows (fun _ => false) "user" = true ∧
    check_dependencies initState.rows (fun _ => false) "cart" = false :=
  ⟨(dependency_gating { initState with running := ["user"] }
      (Relation.ReflTransGen.single
        (SchedStep.start initState "user" (fun _ => false) rfl))).2.1,
   (dependency_gating { initState with running := ["user"] }
      (Relation.ReflTransGen.single
        (SchedStep.start initState "user" (fun _ => false) rfl))).2.2⟩

end ECommerce

